import Mathlib

set_option maxRecDepth 16384

/-!
Verification of the PIX payment backend (Flask app plus provider adapters).

Python strings are modelled as `List Char` where character-level computation
matters (payload generation, checksums) and as `String` in the request/response
plumbing. Machine arithmetic on the CRC register is modelled on `Nat` with
explicit masking by 0xFFFF, exactly mirroring the Python source. Code that can
raise is modelled with `Except String`; a caught exception corresponds to a
branch of the translated handler.
-/

namespace PixApp

/-- Python `s.startswith(p)` on char lists: the first `p.length` characters equal `p`. -/
def startsWithL (s p : List Char) : Bool :=
  s.take p.length == p

/-- Python `sub in s` membership on char lists: some suffix of `s` starts with `sub`. -/
def containsL (sub : List Char) : List Char → Bool
  | [] => startsWithL [] sub
  | c :: rest => startsWithL (c :: rest) sub || containsL sub rest

/-- Python `str.isdigit` filtering joined back into a string, on char lists. -/
def digitsL (s : List Char) : List Char :=
  s.filter Char.isDigit

/-- Last `n` characters of a list (Python `s[-n:]` for `0 < n ≤ len(s)`). -/
def lastN (n : Nat) (s : List Char) : List Char :=
  s.drop (s.length - n)

/-- All but the last `n` characters of a list (Python `s[:-n]`). -/
def dropLastN (n : Nat) (s : List Char) : List Char :=
  s.take (s.length - n)

/-- Fuel-driven digit rendering: the value shrinks by a factor of 10 while the fuel
drops by 1, so fuel `n` always suffices for value `n`, and the fuel-0 case is only
ever reached with a value below 10 (where it renders that digit). Structural
recursion keeps the definition reducible by the kernel. -/
def decDigitsCore : Nat → Nat → List Char
  | 0, n => [Char.ofNat (48 + n % 10)]
  | fuel + 1, n =>
    if n < 10 then [Char.ofNat (48 + n)]
    else decDigitsCore fuel (n / 10) ++ [Char.ofNat (48 + n % 10)]

/-- Decimal digit characters of `n`, most significant first (Python `str(n)` for `n : Nat`). -/
def decDigits (n : Nat) : List Char :=
  decDigitsCore n n

/-- Left-pad a digit list with the character 0 to width `w` (Python format `:0wd`). -/
def zfill (w : Nat) (l : List Char) : List Char :=
  List.replicate (w - l.length) '0' ++ l

/-- Python f-string `f"\x7bn:02d\x7d"`. -/
def fmt02d (n : Nat) : List Char :=
  zfill 2 (decDigits n)

/-- Python f-string `f"\x7bn:04d\x7d"`. -/
def fmt04d (n : Nat) : List Char :=
  zfill 4 (decDigits n)

/-- One shift-and-conditionally-xor step of the CRC inner loop from
`validate_pix.calculate_crc16_ccitt`, including the `crc &= 0xFFFF` mask. -/
def crc16_bit_step (crc : Nat) : Nat :=
  if crc.land 0x8000 ≠ 0 then ((crc <<< 1).xor 0x1021).land 0xFFFF
  else (crc <<< 1).land 0xFFFF

/-- Folding one input byte into the CRC register: `crc ^= byte << 8` followed by
eight bit steps (`validate_pix.calculate_crc16_ccitt`). -/
def crc16_byte_step (crc b : Nat) : Nat :=
  crc16_bit_step^[8] (crc.xor (b <<< 8))

/-- The CRC register after folding the ASCII bytes of `data` into the state `init`. -/
def crcFrom (init : Nat) (data : List Char) : Nat :=
  data.foldl (fun crc c => crc16_byte_step crc c.toNat) init

/-- The CRC register after processing the ASCII bytes of `data`, starting from 0xFFFF. -/
def crc16_loop (data : List Char) : Nat :=
  crcFrom 0xFFFF data

/-- Uppercase hexadecimal digit character for `d < 16`. -/
def hexUpperDigit (d : Nat) : Char :=
  Char.ofNat (if d < 10 then 48 + d else 55 + d)

/-- Python format `f"\x7bcrc:04X\x7d"` for `crc < 0x10000`: exactly four uppercase hex digits. -/
def toHex4 (n : Nat) : List Char :=
  [hexUpperDigit (n / 4096 % 16), hexUpperDigit (n / 256 % 16),
   hexUpperDigit (n / 16 % 16), hexUpperDigit (n % 16)]

/-- `validate_pix.calculate_crc16_ccitt`: CRC-16/CCITT-FALSE (poly 0x1021, init 0xFFFF,
no final xor) over the ASCII bytes of `data`, rendered as 4 uppercase hex digits. -/
def calculate_crc16_ccitt (data : List Char) : List Char :=
  toHex4 (crc16_loop data)

/-- Python `transaction_hash[:32].ljust(32, '0')`: truncate to 32 chars, then pad
on the right with the character 0 up to 32 chars. -/
def take32_ljust32 (th : List Char) : List Char :=
  th.take 32 ++ List.replicate (32 - (th.take 32).length) '0'

/-- The field list built by `IronPayAPI._generate_pix_code_simulation`. The Python
function receives a float `amount` and uses `int(amount*100)`; that integer is the
`cents` parameter here. `th` is `transaction_hash`. -/
def iron_pix_parts (cents : Nat) (th : List Char) : List (List Char) :=
  [ "00020126".data,
    "580014BR.GOV.BCB.PIX".data,
    "0136".data ++ take32_ljust32 th,
    "52040000".data,
    "5303986".data,
    "54".data ++ fmt02d (decDigits cents).length ++ decDigits cents,
    "5802BR".data,
    "5909IRON PAY".data,
    "6008BRASILIA".data,
    "62".data ++ fmt02d (th.length + 4) ++ "05".data ++ fmt02d th.length ++ th,
    "6304".data ]

/-- `pix_code = "".join(pix_parts)` in `IronPayAPI._generate_pix_code_simulation`. -/
def iron_pix_code (cents : Nat) (th : List Char) : List Char :=
  (iron_pix_parts cents th).flatten

/-- `IronPayAPI._generate_pix_code_simulation`: the payload plus
`f"\x7babs(hash(pix_code)) % 10000:04d\x7d"`. The Python `hash` builtin is process-seeded, so the
value of `abs(hash(pix_code))` is the parameter `hashAbs`. -/
def iron_generate_pix_code_simulation (cents : Nat) (th : List Char) (hashAbs : Nat) :
    List Char :=
  iron_pix_code cents th ++ fmt04d (hashAbs % 10000)

/-- The field list built by `paybets_api.gerar_codigo_pix_simulado`. `cents` is
`int(valor*100)`, `protocolo` the reference, and `uuidHex` the value of
`uuid.uuid4().hex` (32 lowercase hex chars, sliced with `[:32]`). -/
def paybets_pix_parts (cents : Nat) (protocolo uuidHex : List Char) : List (List Char) :=
  [ "00020126".data,
    "580014BR.GOV.BCB.PIX".data,
    "0136".data ++ uuidHex.take 32,
    "52040000".data,
    "5303986".data,
    "54".data ++ fmt02d (decDigits cents).length ++ decDigits cents,
    "5802BR".data,
    "59".data ++ fmt02d ("DEMONSTRACAO".data.length) ++ "DEMONSTRACAO".data,
    "6008BRASILIA".data,
    "62".data ++ fmt02d (protocolo.length + 4) ++ "05".data ++ fmt02d protocolo.length
      ++ protocolo,
    "6304".data ]

/-- The joined payload of `gerar_codigo_pix_simulado` before the checksum. -/
def paybets_pix_code (cents : Nat) (protocolo uuidHex : List Char) : List Char :=
  (paybets_pix_parts cents protocolo uuidHex).flatten

/-- `paybets_api.gerar_codigo_pix_simulado`: payload plus
`f"\x7babs(hash(pix_code)) % 10000:04d\x7d"`; `hashAbs` stands for `abs(hash(pix_code))`. -/
def gerar_codigo_pix_simulado (cents : Nat) (protocolo uuidHex : List Char)
    (hashAbs : Nat) : List Char :=
  paybets_pix_code cents protocolo uuidHex ++ fmt04d (hashAbs % 10000)

/-- Python `s.strip()`: whitespace removed from both ends. -/
def py_strip (l : List Char) : List Char :=
  ((l.dropWhile Char.isWhitespace).reverse.dropWhile Char.isWhitespace).reverse

/-- Python `s.lower()` restricted to the ASCII range used by the payloads. -/
def toLowerL (l : List Char) : List Char :=
  l.map Char.toLower

/-- Python slice `pix_code[-8:-4]` on a char list, with the clamping slices do. -/
def pySliceM8M4 (l : List Char) : List Char :=
  (l.drop (l.length - 8)).take ((l.length - 4) - (l.length - 8))

/-- The `checks` dictionary of `simple_pix_validator.simple_pix_validation`,
together with the derived `valid` verdict and `score`. -/
structure SimplePixResult where
  tem_conteudo : Bool
  tamanho_adequado : Bool
  inicia_correto : Bool
  contem_pix_key : Bool
  contem_valor : Bool
  contem_nome : Bool
  termina_com_crc : Bool
  valid : Bool
  score : Nat
deriving DecidableEq

/-- Result of `simple_pix_validation`: the empty-input early return carries only an
error message; otherwise the checks record. The purely informational `info` map of
the source is not modelled. -/
inductive SimplePixValidation where
  | emptyError (msg : String)
  | result (r : SimplePixResult)
deriving DecidableEq

/-- `simple_pix_validator.simple_pix_validation`: strips the input, computes the
seven checks, and derives `valid` from the three critical checks
(`tem_conteudo`, `tamanho_adequado`, `inicia_correto`). -/
def simple_pix_validation (pix_code : List Char) : SimplePixValidation :=
  if pix_code.isEmpty then .emptyError "Código PIX vazio"
  else
    let s := py_strip pix_code
    let tem_conteudo := decide (0 < s.length)
    let tamanho_adequado := decide (50 ≤ s.length) && decide (s.length ≤ 512)
    let inicia_correto := startsWithL s "00020101".data
    let contem_pix_key := containsL "br.gov.bcb.pix".data (toLowerL s)
    let contem_valor := containsL "5204".data s || containsL "54".data s
    let contem_nome := s.any Char.isAlpha
    let termina_com_crc := decide (4 ≤ s.length) && (pySliceM8M4 s == "6304".data)
    let valid := tem_conteudo && tamanho_adequado && inicia_correto
    let score := (if tem_conteudo then 1 else 0) + (if tamanho_adequado then 1 else 0)
      + (if inicia_correto then 1 else 0) + (if contem_pix_key then 1 else 0)
      + (if contem_valor then 1 else 0) + (if contem_nome then 1 else 0)
      + (if termina_com_crc then 1 else 0)
    .result ⟨tem_conteudo, tamanho_adequado, inicia_correto, contem_pix_key,
      contem_valor, contem_nome, termina_com_crc, valid, score⟩

/-- The `valid` verdict of a `simple_pix_validation` outcome (`False` on the
empty-input early return, matching the error dictionary of the source). -/
def spv_valid : SimplePixValidation → Bool
  | .emptyError _ => false
  | .result r => r.valid

/-- Python digit-filtering of a string (`join` over `filter(str.isdigit, s)`), as used by the CPF
validators of the adapters. -/
def digitsOnlyS (s : String) : String :=
  String.mk (s.data.filter Char.isDigit)

/-- The cache-key normalization of `app.generate_pix` line 350:
`customer_cpf.replace('.', '').replace('-', '')`. Replacing a single-character
substring by the empty string removes exactly the occurrences of that character. -/
def cache_key (cpf : String) : String :=
  String.mk (cpf.data.filter (fun c => !(c == '.' || c == '-')))

/-- One entry of the module-level `pix_cache` dictionary of `app.py` (the value
stored at lines 432-439 and 508-515). `created_at` is a timestamp in seconds;
amounts are in centavos throughout the model (the app fixes `amount = 118.35`). -/
structure CacheEntry where
  transaction_id : String
  amount : Nat
  pix_code : String
  provider : String
  customer_name : String
  created_at : Nat
deriving DecidableEq

/-- The `pix_cache` dictionary, modelled as an association list over exact string keys. -/
abbrev PixCache := List (String × CacheEntry)

/-- Python `d.get(k)` / `k in d` on the modelled dictionary. -/
def dictLookup : PixCache → String → Option CacheEntry
  | [], _ => none
  | (k, v) :: rest, key => if k = key then some v else dictLookup rest key

/-- Python `del d[k]` on the modelled dictionary. -/
def dictErase : PixCache → String → PixCache
  | [], _ => []
  | (k, v) :: rest, key => if k = key then dictErase rest key else (k, v) :: dictErase rest key

/-- Python `d[k] = v` on the modelled dictionary (unconditional overwrite). -/
def dictInsert (m : PixCache) (key : String) (v : CacheEntry) : PixCache :=
  (key, v) :: dictErase m key

/-- The cache consultation of `app.generate_pix` lines 352-378: a present entry is
returned only while `datetime.now() - created_at < timedelta(minutes=60)` (strict),
otherwise it is deleted (`del pix_cache[cache_key]`) and the flow regenerates.
`now` is in seconds, so the window is 3600. -/
def pix_cache_check (cache : PixCache) (key : String) (now : Nat) :
    Option CacheEntry × PixCache :=
  match dictLookup cache key with
  | some e => if now - e.created_at < 3600 then (some e, cache) else (none, dictErase cache key)
  | none => (none, cache)

/-- `ZentraPayResponse` dataclass of `zentrapay_api.py` (amount in centavos here). -/
structure ZentraPayResponse where
  transaction_id : String
  pix_code : String
  pix_qr_code : String
  status : String
  amount : Nat
  expires_at : String
deriving DecidableEq

/-- `IronPaymentResponse` dataclass of `ironpay_api.py` (amount in centavos here). -/
structure IronPaymentResponse where
  transaction_hash : String
  pix_code : String
  pix_qr_code : String
  status : String
  amount : Nat
deriving DecidableEq

/-- `ZentraPayAPI._validate_cpf`: empty CPF and CPFs whose digit sequence is not
exactly 11 long raise `ValueError`; otherwise the cleaned digits are returned. -/
def zentra_validate_cpf (cpf : String) : Except String String :=
  if cpf = "" then .error "CPF é obrigatório"
  else if (digitsOnlyS cpf).length = 11 then .ok (digitsOnlyS cpf)
  else .error "CPF deve ter 11 dígitos"

/-- `ZentraPayAPI.create_pix_payment`: input validation from the source, then the
remote interaction. The network request, HTTP status handling and response parsing
(any of which raises on failure) are abstracted into the `net` outcome. -/
def zentra_create_pix_payment (name email cpf : String) (amountCents : Nat)
    (net : Except String ZentraPayResponse) : Except String ZentraPayResponse :=
  if name = "" || email = "" || cpf = "" || amountCents == 0 then
    .error "Todos os campos são obrigatórios: name, email, cpf, amount"
  else if amountCents == 0 then .error "Valor deve ser maior que zero"
  else
    match zentra_validate_cpf cpf with
    | .error e => .error e
    | .ok _ => net

/-- `IronPayAPI.create_pix_payment`: the CPF is cleaned with
`join(filter(str.isdigit, data.cpf))` and rejected with `ValueError` unless it
has exactly 11 digits; the remote interaction is abstracted into `net`. -/
def iron_create_pix_payment (cpf : String)
    (net : Except String IronPaymentResponse) : Except String IronPaymentResponse :=
  if (digitsOnlyS cpf).length ≠ 11 then .error ("CPF inválido: " ++ cpf)
  else net

/-- The fields of the dictionary returned by the local Brazilian-PIX fallback
provider (`brazilian_pix.create_brazilian_pix_provider().create_pix_payment`). -/
structure BackupPix where
  transaction_id : String
  order_id : String
  amount : Nat
  pix_code : String
  qr_code_image : String
deriving DecidableEq

/-- Modelled from the spec: the module `brazilian_pix` imported by `app.py` line 539
is not present in the source tree. Per the spec the local fallback builds its payload
locally, never fails, and returns status `pending` unconditionally; the locally
generated identifiers and payload are abstracted as the `backup` parameter, and the
returned status is the constant `"pending"`. -/
def brazilian_create_pix_payment (backup : BackupPix) : BackupPix × String :=
  (backup, "pending")

/-- The JSON body of the `/generate-pix` success responses built by `app.py`
(`jsonify({...})` at lines 360-372, 445-460, 517-529 and 562-576). The fallback
response carries no `cached` key, hence the `Option`. -/
structure PixResponse where
  success : Bool
  transaction_id : String
  order_id : String
  amount : Nat
  pixCode : String
  pix_code : String
  pixQrCode : String
  qr_code_image : String
  status : String
  provider : String
  cached : Option Bool
deriving DecidableEq

/-- Outcome of the `/generate-pix` handler: a success body, or an error body with
its HTTP status code. -/
inductive GenResult where
  | ok (r : PixResponse)
  | clientError (code : Nat) (error : String)
deriving DecidableEq

/-- The cache-hit response of `app.generate_pix` lines 360-372: status is the
literal `pending` and both QR-image fields carry the cached textual PIX code. -/
def cached_pix_response (e : CacheEntry) : PixResponse :=
  ⟨true, e.transaction_id, e.transaction_id, e.amount, e.pix_code, e.pix_code,
   e.pix_code, e.pix_code, "pending", e.provider, some true⟩

/-- The ZentraPay success response of `app.generate_pix` lines 445-460. -/
def zentra_success_response (zr : ZentraPayResponse) : PixResponse :=
  ⟨true, zr.transaction_id, zr.transaction_id, zr.amount, zr.pix_code, zr.pix_code,
   zr.pix_qr_code, zr.pix_qr_code, zr.status, "ZentraPay", some false⟩

/-- The Iron Pay fallback success response of `app.generate_pix` lines 517-529. -/
def iron_success_response (ir : IronPaymentResponse) : PixResponse :=
  ⟨true, ir.transaction_hash, ir.transaction_hash, ir.amount, ir.pix_code, ir.pix_code,
   ir.pix_qr_code, ir.pix_qr_code, ir.status, "Iron Pay (Fallback)", some false⟩

/-- The Brazilian-PIX fallback success response of `app.generate_pix` lines 562-576
(no `cached` key in the source dictionary). -/
def backup_success_response (bp : BackupPix) (status : String) : PixResponse :=
  ⟨true, bp.transaction_id, bp.order_id, bp.amount, bp.pix_code, bp.pix_code,
   bp.qr_code_image, bp.qr_code_image, status, "Brazilian_PIX_Fallback", none⟩

/-- The cache entry written on the ZentraPay success path (lines 432-439). -/
def zentra_cache_entry (zr : ZentraPayResponse) (customer_name : String) (now : Nat) :
    CacheEntry :=
  ⟨zr.transaction_id, zr.amount, zr.pix_code, "ZentraPay", customer_name, now⟩

/-- The cache entry written on the Iron Pay success path (lines 508-515). -/
def iron_cache_entry (ir : IronPaymentResponse) (customer_name : String) (now : Nat) :
    CacheEntry :=
  ⟨ir.transaction_hash, ir.amount, ir.pix_code, "Iron Pay (Fallback)", customer_name, now⟩

/-- The JSON fields of a `/generate-pix` request that the handler reads. -/
structure PixRequest where
  cpf : String
  name : String
  email : String
deriving DecidableEq

/-- The non-deterministic surroundings of one `/generate-pix` call: the outcomes of
the two remote adapter interactions, the data fabricated by the local fallback, and
the current time (seconds). -/
structure GenEnv where
  zentra_net : Except String ZentraPayResponse
  iron_net : Except String IronPaymentResponse
  backup : BackupPix
  now : Nat

/-- The `/generate-pix` handler `app.generate_pix`, from the required-field check
onward. Returns the response, the cache after the call, and the list of provider
adapters whose `create_pix_payment` was invoked, in order. The hardcoded
`amount = 118.35` is 11835 centavos. Webhook notifications (fire-and-forget HTTP,
lines 429/505/559) have no bearing on the response and are not modelled. -/
def generate_pix (req : PixRequest) (cache : PixCache) (env : GenEnv) :
    GenResult × PixCache × List String :=
  if req.cpf = "" then (.clientError 400 "Campo cpf é obrigatório", cache, [])
  else if req.name = "" then (.clientError 400 "Campo name é obrigatório", cache, [])
  else if req.email = "" then (.clientError 400 "Campo email é obrigatório", cache, [])
  else
    let key := cache_key req.cpf
    match pix_cache_check cache key env.now with
    | (some e, cache1) => (.ok (cached_pix_response e), cache1, [])
    | (none, cache1) =>
      match zentra_create_pix_payment req.name req.email req.cpf 11835 env.zentra_net with
      | .ok zr =>
        (.ok (zentra_success_response zr),
         dictInsert cache1 key (zentra_cache_entry zr req.name env.now), ["ZentraPay"])
      | .error _ =>
        match iron_create_pix_payment req.cpf env.iron_net with
        | .ok ir =>
          (.ok (iron_success_response ir),
           dictInsert cache1 key (iron_cache_entry ir req.name env.now),
           ["ZentraPay", "Iron Pay"])
        | .error _ =>
          let (bp, st) := brazilian_create_pix_payment env.backup
          (.ok (backup_success_response bp st), cache1,
           ["ZentraPay", "Iron Pay", "Brazilian PIX"])

/-- A provider JSON body as far as the status-checking code reads it. `none` fields
are keys absent from the response. -/
structure StatusJsonBody where
  status : Option String
  amount : Option Nat
  paid_at : Option String
  created_at : Option String
deriving DecidableEq

/-- Outcome of the HTTP interaction inside a `check_payment_status` call: either the
request raised, or a response arrived with a status code and a body (`none` body
means `response.json()` raises). -/
inductive HttpOutcome where
  | exn (msg : String)
  | resp (code : Nat) (body : Option StatusJsonBody)
deriving DecidableEq

/-- The status dictionaries returned by the `check_payment_status` methods. Keys
that a given branch does not set are `none`. -/
structure StatusResult where
  status : String
  transaction_id : Option String := none
  transaction_hash : Option String := none
  paid : Option Bool := none
  pending : Option Bool := none
  failed : Option Bool := none
  amount : Option Nat := none
  paid_at : Option String := none
  created_at : Option String := none
  error : Option String := none
deriving DecidableEq

/-- The body of the `try` block in `IronPayAPI.check_payment_status`: `.error` marks
a raised exception (failed request, or `response.json()` on a malformed body).
Amounts are kept in centavos; the source divides by 100 with float division, a
conversion no claim depends on. -/
def iron_check_status_try (tid : String) (out : HttpOutcome) : Except String StatusResult :=
  match out with
  | .exn e => .error e
  | .resp code body =>
    if code = 200 then
      match body with
      | none => .error "response.json() failed"
      | some d =>
        .ok { status := d.status.getD "pending", transaction_hash := some tid,
              paid := some (d.status == some "paid"), amount := some (d.amount.getD 0 / 100) }
    else
      .ok { status := "pending", transaction_hash := some tid, paid := some false }

/-- `IronPayAPI.check_payment_status`: the whole body runs under `try`, and the
`except` clause returns an error dictionary, so no exception propagates. -/
def iron_check_payment_status (tid : String) (out : HttpOutcome) :
    Except String StatusResult :=
  match iron_check_status_try tid out with
  | .ok r => .ok r
  | .error e =>
    .ok { status := "error", transaction_hash := some tid, paid := some false,
          error := some e }

/-- The body of the `try` block in `ZentraPayAPI.check_payment_status`. -/
def zentra_check_status_try (tid : String) (out : HttpOutcome) : Except String StatusResult :=
  match out with
  | .exn e => .error e
  | .resp code body =>
    if code = 404 then
      .ok { status := "not_found", transaction_id := some tid, paid := some false,
            pending := some false, failed := some true }
    else if code ≠ 200 then
      .ok { status := "error", error := some ("HTTP " ++ String.mk (decDigits code)),
            transaction_id := some tid }
    else
      match body with
      | none => .error "response.json() failed"
      | some d =>
        let status := d.status.getD "unknown"
        .ok { status := status, transaction_id := some tid,
              paid := some (["paid", "completed", "approved"].contains status),
              pending := some (["pending", "waiting_payment"].contains status),
              failed := some (["failed", "expired", "cancelled", "refunded"].contains status),
              amount := some (d.amount.getD 0), paid_at := d.paid_at,
              created_at := d.created_at }

/-- `ZentraPayAPI.check_payment_status`: `try` body plus the catch-all `except`
returning an error dictionary. -/
def zentra_check_payment_status (tid : String) (out : HttpOutcome) :
    Except String StatusResult :=
  match zentra_check_status_try tid out with
  | .ok r => .ok r
  | .error e => .ok { status := "error", error := some e, transaction_id := some tid }

/-- `PayBetsAPI.check_payment_status`: the source performs no I/O and always returns
the fixed pending dictionary. -/
def paybets_check_payment_status (tid : String) : Except String StatusResult :=
  .ok { status := "pending", transaction_id := some tid, paid := some false,
        pending := some true, failed := some false }

/-- `Except.isOk` style discriminator used to state that no exception propagates. -/
def exceptIsOk : Except String StatusResult → Bool
  | .ok _ => true
  | .error _ => false

/-- The `status` field of a status-check outcome, when no exception propagated. -/
def statusOf : Except String StatusResult → Option String
  | .ok r => some r.status
  | .error _ => none

theorem take_append_self (p r : List Char) : (p ++ r).take p.length = p := by
  induction p with
  | nil => simp
  | cons c t ih => simp [ih]

theorem drop_append_self (p r : List Char) : (p ++ r).drop p.length = r := by
  induction p with
  | nil => simp
  | cons c t ih => simp [ih]

theorem startsWithL_append_self (p r : List Char) : startsWithL (p ++ r) p = true := by
  simp [startsWithL, take_append_self]

theorem containsL_of_startsWith (s sub : List Char) (h : startsWithL s sub = true) :
    containsL sub s = true := by
  cases s with
  | nil => simpa [containsL] using h
  | cons c t => simp [containsL, h]

theorem containsL_append_right (s t sub : List Char) (h : containsL sub t = true) :
    containsL sub (s ++ t) = true := by
  induction s with
  | nil => simpa using h
  | cons c s' ih => simp [containsL]; right; exact ih

theorem lastN_append (a b : List Char) (h : b.length = 4) : lastN 4 (a ++ b) = b := by
  have : (a ++ b).length - 4 = a.length := by simp [List.length_append, h]
  rw [lastN, this, drop_append_self]

theorem dropLastN_append (a b : List Char) (h : b.length = 4) : dropLastN 4 (a ++ b) = a := by
  have : (a ++ b).length - 4 = a.length := by simp [List.length_append, h]
  rw [dropLastN, this, take_append_self]

theorem decDigitsCore_length_pos (fuel n : Nat) : 0 < (decDigitsCore fuel n).length := by
  cases fuel with
  | zero => simp [decDigitsCore]
  | succ fuel' =>
    by_cases h : n < 10
    · simp [decDigitsCore, h]
    · simp [decDigitsCore, h]

theorem decDigits_length_pos (n : Nat) : 0 < (decDigits n).length :=
  decDigitsCore_length_pos n n

theorem decDigitsCore_length_le : ∀ k fuel n : Nat, n < 10 ^ (k + 1) →
    (decDigitsCore fuel n).length ≤ k + 1
  | _, 0, _, _ => by simp [decDigitsCore]
  | k, fuel + 1, n, h => by
    by_cases h10 : n < 10
    · simp [decDigitsCore, h10]
    · cases k with
      | zero =>
        have : n < 10 := by simpa using h
        omega
      | succ k' =>
        have hd : n / 10 < 10 ^ (k' + 1) := by
          apply Nat.div_lt_of_lt_mul
          calc n < 10 ^ (k' + 2) := h
          _ = 10 * 10 ^ (k' + 1) := by ring
        have ih := decDigitsCore_length_le k' fuel (n / 10) hd
        simp only [decDigitsCore, if_neg h10, List.length_append, List.length_cons,
          List.length_nil]
        omega

theorem decDigits_length_le (k n : Nat) (h : n < 10 ^ (k + 1)) :
    (decDigits n).length ≤ k + 1 :=
  decDigitsCore_length_le k n n h

theorem isDigit_ofNat_add48 (d : Nat) (h : d < 10) :
    (Char.ofNat (48 + d)).isDigit = true := by
  interval_cases d <;> decide

theorem decDigitsCore_all_digit : ∀ fuel n : Nat, ∀ c ∈ decDigitsCore fuel n,
    c.isDigit = true
  | 0, n => by
    intro c hc
    simp [decDigitsCore] at hc
    subst hc
    exact isDigit_ofNat_add48 (n % 10) (Nat.mod_lt _ (by omega))
  | fuel + 1, n => by
    intro c hc
    by_cases h10 : n < 10
    · simp [decDigitsCore, h10] at hc
      subst hc
      exact isDigit_ofNat_add48 n h10
    · simp only [decDigitsCore, if_neg h10] at hc
      rcases List.mem_append.mp hc with h1 | h2
      · exact decDigitsCore_all_digit fuel (n / 10) c h1
      · simp at h2
        subst h2
        exact isDigit_ofNat_add48 (n % 10) (Nat.mod_lt _ (by omega))

theorem decDigits_all_digit (n : Nat) : ∀ c ∈ decDigits n, c.isDigit = true :=
  decDigitsCore_all_digit n n

theorem zfill_length (w : Nat) (l : List Char) (h : l.length ≤ w) :
    (zfill w l).length = w := by
  simp [zfill]
  omega

theorem zfill_all_digit (w : Nat) (l : List Char) (h : ∀ c ∈ l, c.isDigit = true) :
    ∀ c ∈ zfill w l, c.isDigit = true := by
  intro c hc
  rcases List.mem_append.mp hc with h1 | h2
  · have := List.eq_of_mem_replicate h1
    subst this
    decide
  · exact h c h2

theorem fmt02d_length (n : Nat) (h : n < 100) : (fmt02d n).length = 2 :=
  zfill_length 2 _ (decDigits_length_le 1 n (by omega))

theorem fmt04d_length (n : Nat) (h : n < 10000) : (fmt04d n).length = 4 :=
  zfill_length 4 _ (decDigits_length_le 3 n (by omega))

theorem fmt04d_all_digit (n : Nat) : ∀ c ∈ fmt04d n, c.isDigit = true :=
  zfill_all_digit 4 _ (decDigits_all_digit n)

theorem take32_ljust32_length (th : List Char) : (take32_ljust32 th).length = 32 := by
  simp [take32_ljust32]

theorem ne_of_all_digit_of_mem_nondigit (l₁ l₂ : List Char) (c : Char)
    (hall : ∀ x ∈ l₁, x.isDigit = true) (hm : c ∈ l₂) (hc : c.isDigit = false) :
    l₁ ≠ l₂ := by
  intro he
  subst he
  have := hall c hm
  rw [hc] at this
  exact Bool.false_ne_true this

theorem crcFrom_append (i : Nat) (a b : List Char) :
    crcFrom i (a ++ b) = crcFrom (crcFrom i a) b := by
  simp [crcFrom, List.foldl_append]

theorem iron_crc_value :
    crc16_loop (iron_pix_code 11834 "iron_cafebabe42".data) = 23205 := by
  have hcode : iron_pix_code 11834 "iron_cafebabe42".data =
      "00020126580014BR.GOV.BCB.PIX0136iron_cafebabe42000000000000000005204000053039865405118345802BR5909IRON PAY6008BRASILIA62190515iron_cafebabe426304".data := by
    decide
  have hsplit :
      ("00020126580014BR.GOV.BCB.PIX0136iron_cafebabe42000000000000000005204000053039865405118345802BR5909IRON PAY6008BRASILIA62190515iron_cafebabe426304".data : List Char)
      = "00020126580014BR.GOV.BCB.PIX0".data ++ ("136iron_cafebabe4200000000000".data
        ++ ("00000052040000530398654051183".data ++ ("45802BR5909IRON PAY6008BRASIL".data
        ++ "IA62190515iron_cafebabe426304".data))) := by decide
  have s1 : crcFrom 65535 "00020126580014BR.GOV.BCB.PIX0".data = 41967 := by decide
  have s2 : crcFrom 41967 "136iron_cafebabe4200000000000".data = 52655 := by decide
  have s3 : crcFrom 52655 "00000052040000530398654051183".data = 39322 := by decide
  have s4 : crcFrom 39322 "45802BR5909IRON PAY6008BRASIL".data = 14872 := by decide
  have s5 : crcFrom 14872 "IA62190515iron_cafebabe426304".data = 23205 := by decide
  rw [crc16_loop, hcode, hsplit]
  rw [crcFrom_append, s1, crcFrom_append, s2, crcFrom_append, s3, crcFrom_append, s4, s5]

theorem paybets_crc_value :
    crc16_loop (paybets_pix_code 11834 "PROTO-1".data
      "0123456789abcdef0123456789abcdef".data) = 29616 := by
  have hcode : paybets_pix_code 11834 "PROTO-1".data
      "0123456789abcdef0123456789abcdef".data =
      "00020126580014BR.GOV.BCB.PIX01360123456789abcdef0123456789abcdef5204000053039865405118345802BR5912DEMONSTRACAO6008BRASILIA62110507PROTO-16304".data := by
    decide
  have hsplit :
      ("00020126580014BR.GOV.BCB.PIX01360123456789abcdef0123456789abcdef5204000053039865405118345802BR5912DEMONSTRACAO6008BRASILIA62110507PROTO-16304".data : List Char)
      = "00020126580014BR.GOV.BCB.PIX0".data ++ ("1360123456789abcdef0123456789".data
        ++ ("abcdef52040000530398654051183".data ++ ("45802BR5912DEMONSTRACAO6008BR".data
        ++ "ASILIA62110507PROTO-16304".data))) := by decide
  have s1 : crcFrom 65535 "00020126580014BR.GOV.BCB.PIX0".data = 41967 := by decide
  have s2 : crcFrom 41967 "1360123456789abcdef0123456789".data = 8785 := by decide
  have s3 : crcFrom 8785 "abcdef52040000530398654051183".data = 9068 := by decide
  have s4 : crcFrom 9068 "45802BR5912DEMONSTRACAO6008BR".data = 37657 := by decide
  have s5 : crcFrom 37657 "ASILIA62110507PROTO-16304".data = 29616 := by decide
  rw [crc16_loop, hcode, hsplit]
  rw [crcFrom_append, s1, crcFrom_append, s2, crcFrom_append, s3, crcFrom_append, s4, s5]

theorem iron_pix_code_length (cents : Nat) (th : List Char)
    (hc : (decDigits cents).length ≤ 10) (hth : th.length ≤ 95) :
    (iron_pix_code cents th).length = 125 + (decDigits cents).length + th.length := by
  have e1 : (fmt02d (decDigits cents).length).length = 2 := fmt02d_length _ (by omega)
  have e2 : (fmt02d (th.length + 4)).length = 2 := fmt02d_length _ (by omega)
  have e3 : (fmt02d th.length).length = 2 := fmt02d_length _ (by omega)
  have e4 := take32_ljust32_length th
  have l1 : ("00020126".data).length = 8 := by decide
  have l2 : ("580014BR.GOV.BCB.PIX".data).length = 20 := by decide
  have l3 : ("0136".data).length = 4 := by decide
  have l4 : ("52040000".data).length = 8 := by decide
  have l5 : ("5303986".data).length = 7 := by decide
  have l6 : ("54".data).length = 2 := by decide
  have l7 : ("5802BR".data).length = 6 := by decide
  have l8 : ("5909IRON PAY".data).length = 12 := by decide
  have l9 : ("6008BRASILIA".data).length = 12 := by decide
  have l10 : ("62".data).length = 2 := by decide
  have l11 : ("05".data).length = 2 := by decide
  have l12 : ("6304".data).length = 4 := by decide
  simp only [iron_pix_code, iron_pix_parts, List.flatten_cons, List.flatten_nil,
    List.append_nil, List.length_append, e1, e2, e3, e4, l1, l2, l3, l4, l5, l6, l7,
    l8, l9, l10, l11, l12]
  omega

theorem paybets_pix_code_length (cents : Nat) (protocolo uuidHex : List Char)
    (hc : (decDigits cents).length ≤ 10) (hp : protocolo.length ≤ 95)
    (hu : uuidHex.length = 32) :
    (paybets_pix_code cents protocolo uuidHex).length
      = 129 + (decDigits cents).length + protocolo.length := by
  have e1 : (fmt02d (decDigits cents).length).length = 2 := fmt02d_length _ (by omega)
  have e2 : (fmt02d (protocolo.length + 4)).length = 2 := fmt02d_length _ (by omega)
  have e3 : (fmt02d protocolo.length).length = 2 := fmt02d_length _ (by omega)
  have e4 : (uuidHex.take 32).length = 32 := by simp [hu]
  have e5 : (fmt02d ("DEMONSTRACAO".data.length)).length = 2 := by decide
  have e5b : (fmt02d 12).length = 2 := by decide
  have l1 : ("00020126".data).length = 8 := by decide
  have l2 : ("580014BR.GOV.BCB.PIX".data).length = 20 := by decide
  have l3 : ("0136".data).length = 4 := by decide
  have l4 : ("52040000".data).length = 8 := by decide
  have l5 : ("5303986".data).length = 7 := by decide
  have l6 : ("54".data).length = 2 := by decide
  have l7 : ("5802BR".data).length = 6 := by decide
  have l8 : ("59".data).length = 2 := by decide
  have l9 : ("DEMONSTRACAO".data).length = 12 := by decide
  have l10 : ("6008BRASILIA".data).length = 12 := by decide
  have l11 : ("62".data).length = 2 := by decide
  have l12 : ("05".data).length = 2 := by decide
  have l13 : ("6304".data).length = 4 := by decide
  simp only [paybets_pix_code, paybets_pix_parts, List.flatten_cons, List.flatten_nil,
    List.append_nil, List.length_append, e1, e2, e3, e4, e5, e5b, l1, l2, l3, l4, l5,
    l6, l7, l8, l9, l10, l11, l12, l13]
  omega

theorem iron_sim_length (cents : Nat) (th : List Char) (hashAbs : Nat)
    (hc : cents < 10 ^ 10) (hth : th.length ≤ 95) :
    (iron_generate_pix_code_simulation cents th hashAbs).length
      = 129 + (decDigits cents).length + th.length := by
  have hd : (decDigits cents).length ≤ 10 := decDigits_length_le 9 cents (by omega)
  have hf : (fmt04d (hashAbs % 10000)).length = 4 :=
    fmt04d_length _ (Nat.mod_lt _ (by omega))
  simp only [iron_generate_pix_code_simulation, List.length_append, hf,
    iron_pix_code_length cents th hd hth]
  omega

theorem paybets_sim_length (cents : Nat) (protocolo uuidHex : List Char) (hashAbs : Nat)
    (hc : cents < 10 ^ 10) (hp : protocolo.length ≤ 95) (hu : uuidHex.length = 32) :
    (gerar_codigo_pix_simulado cents protocolo uuidHex hashAbs).length
      = 133 + (decDigits cents).length + protocolo.length := by
  have hd : (decDigits cents).length ≤ 10 := decDigits_length_le 9 cents (by omega)
  have hf : (fmt04d (hashAbs % 10000)).length = 4 :=
    fmt04d_length _ (Nat.mod_lt _ (by omega))
  simp only [gerar_codigo_pix_simulado, List.length_append, hf,
    paybets_pix_code_length cents protocolo uuidHex hd hp hu]
  omega

/-- C1: the trailing four characters emitted by the simulated PIX generators are
`abs(hash(payload)) % 10000` rendered as decimal digits, and for the failing inputs
below (amount `int(118.35*100) = 11834` centavos; Iron Pay transaction hash
`iron_cafebabe42`; PayBets reference `PROTO-1` with uuid hex
`0123456789abcdef0123456789abcdef`) the true CRC-16/CCITT-FALSE over the payload up
through the `6304` header contains a hexadecimal letter, so no possible hash value
reproduces it: the checksum recomputation of the claim fails whichever way the
recipe is read (over `payload[:-4]`, or over `payload[:-4] + "6304"` as in
`validate_pix.check_crc16`). -/
theorem simulated_pix_checksum_is_not_crc16 (hashAbs hashAbs2 : Nat) :
    lastN 4 (iron_generate_pix_code_simulation 11834 "iron_cafebabe42".data hashAbs)
      ≠ calculate_crc16_ccitt
          (dropLastN 4 (iron_generate_pix_code_simulation 11834 "iron_cafebabe42".data hashAbs)) ∧
    lastN 4 (iron_generate_pix_code_simulation 11834 "iron_cafebabe42".data hashAbs)
      ≠ calculate_crc16_ccitt
          (dropLastN 4 (iron_generate_pix_code_simulation 11834 "iron_cafebabe42".data hashAbs)
            ++ "6304".data) ∧
    lastN 4 (gerar_codigo_pix_simulado 11834 "PROTO-1".data
        "0123456789abcdef0123456789abcdef".data hashAbs2)
      ≠ calculate_crc16_ccitt
          (dropLastN 4 (gerar_codigo_pix_simulado 11834 "PROTO-1".data
            "0123456789abcdef0123456789abcdef".data hashAbs2)) ∧
    lastN 4 (gerar_codigo_pix_simulado 11834 "PROTO-1".data
        "0123456789abcdef0123456789abcdef".data hashAbs2)
      ≠ calculate_crc16_ccitt
          (dropLastN 4 (gerar_codigo_pix_simulado 11834 "PROTO-1".data
            "0123456789abcdef0123456789abcdef".data hashAbs2) ++ "6304".data) := by
  have hf1 : (fmt04d (hashAbs % 10000)).length = 4 :=
    fmt04d_length _ (Nat.mod_lt _ (by omega))
  have hf2 : (fmt04d (hashAbs2 % 10000)).length = 4 :=
    fmt04d_length _ (Nat.mod_lt _ (by omega))
  have e1 : lastN 4 (iron_generate_pix_code_simulation 11834 "iron_cafebabe42".data hashAbs)
      = fmt04d (hashAbs % 10000) := by
    simp only [iron_generate_pix_code_simulation]
    exact lastN_append _ _ hf1
  have e2 : dropLastN 4 (iron_generate_pix_code_simulation 11834 "iron_cafebabe42".data hashAbs)
      = iron_pix_code 11834 "iron_cafebabe42".data := by
    simp only [iron_generate_pix_code_simulation]
    exact dropLastN_append _ _ hf1
  have e3 : lastN 4 (gerar_codigo_pix_simulado 11834 "PROTO-1".data
      "0123456789abcdef0123456789abcdef".data hashAbs2) = fmt04d (hashAbs2 % 10000) := by
    simp only [gerar_codigo_pix_simulado]
    exact lastN_append _ _ hf2
  have e4 : dropLastN 4 (gerar_codigo_pix_simulado 11834 "PROTO-1".data
      "0123456789abcdef0123456789abcdef".data hashAbs2)
      = paybets_pix_code 11834 "PROTO-1".data "0123456789abcdef0123456789abcdef".data := by
    simp only [gerar_codigo_pix_simulado]
    exact dropLastN_append _ _ hf2
  have hiron : crcFrom 65535 (iron_pix_code 11834 "iron_cafebabe42".data) = 23205 :=
    iron_crc_value
  have hpay : crcFrom 65535 (paybets_pix_code 11834 "PROTO-1".data
      "0123456789abcdef0123456789abcdef".data) = 29616 := paybets_crc_value
  have x1 : crcFrom 23205 "6304".data = 44859 := by decide
  have x2 : crcFrom 29616 "6304".data = 50065 := by decide
  have c1 : calculate_crc16_ccitt (iron_pix_code 11834 "iron_cafebabe42".data)
      = "5AA5".data := by
    rw [calculate_crc16_ccitt, iron_crc_value]
    decide
  have c2 : calculate_crc16_ccitt (iron_pix_code 11834 "iron_cafebabe42".data ++ "6304".data)
      = "AF3B".data := by
    rw [calculate_crc16_ccitt, crc16_loop, crcFrom_append, hiron, x1]
    decide
  have c3 : calculate_crc16_ccitt (paybets_pix_code 11834 "PROTO-1".data
      "0123456789abcdef0123456789abcdef".data) = "73B0".data := by
    rw [calculate_crc16_ccitt, paybets_crc_value]
    decide
  have c4 : calculate_crc16_ccitt (paybets_pix_code 11834 "PROTO-1".data
      "0123456789abcdef0123456789abcdef".data ++ "6304".data) = "C391".data := by
    rw [calculate_crc16_ccitt, crc16_loop, crcFrom_append, hpay, x2]
    decide
  refine ⟨?_, ?_, ?_, ?_⟩
  · rw [e1, e2, c1]
    exact ne_of_all_digit_of_mem_nondigit _ _ 'A' (fmt04d_all_digit _) (by decide) (by decide)
  · rw [e1, e2, c2]
    exact ne_of_all_digit_of_mem_nondigit _ _ 'A' (fmt04d_all_digit _) (by decide) (by decide)
  · rw [e3, e4, c3]
    exact ne_of_all_digit_of_mem_nondigit _ _ 'B' (fmt04d_all_digit _) (by decide) (by decide)
  · rw [e3, e4, c4]
    exact ne_of_all_digit_of_mem_nondigit _ _ 'C' (fmt04d_all_digit _) (by decide) (by decide)

theorem dictLookup_erase (m : PixCache) (key : String) :
    dictLookup (dictErase m key) key = none := by
  induction m with
  | nil => simp [dictErase, dictLookup]
  | cons p rest ih =>
    obtain ⟨k, v⟩ := p
    by_cases h : k = key
    · simpa [dictErase, h] using ih
    · simp [dictErase, dictLookup, h, ih]

theorem dictLookup_insert (m : PixCache) (key : String) (v : CacheEntry) :
    dictLookup (dictInsert m key v) key = some v := by
  simp [dictInsert, dictLookup]

theorem filter_dotdash_eq_filter_digit : ∀ l : List Char,
    (∀ c ∈ l, c.isDigit = true ∨ c = '.' ∨ c = '-') →
    l.filter (fun c => !(c == '.' || c == '-')) = l.filter Char.isDigit
  | [], _ => rfl
  | c :: t, h => by
    have hc := h c (List.mem_cons_self c t)
    have ht := fun x hx => h x (List.mem_cons_of_mem c hx)
    have ih := filter_dotdash_eq_filter_digit t ht
    rcases hc with hd | he | he
    · have hne1 : c ≠ '.' := by
        rintro rfl
        exact absurd hd (by decide)
      have hne2 : c ≠ '-' := by
        rintro rfl
        exact absurd hd (by decide)
      simp [List.filter_cons, hd, hne1, hne2]
      simpa using ih
    · subst he
      simp [List.filter_cons, (by decide : ('.' : Char).isDigit = false)]
      simpa using ih
    · subst he
      simp [List.filter_cons, (by decide : ('-' : Char).isDigit = false)]
      simpa using ih

/-- C2 counterexample: at amount `11834` centavos and transaction hash
`iron_cafebabe42`, the Iron Pay simulated payload does not start with `00020101`
(it starts with `00020126`), does not contain the lowercase marker
`br.gov.bcb.pix` (the source emits it uppercase), and fails the validator of the repository itself, namely
`simple_pix_validation` critical checks; moreover the output changes with the
process hash seed (Iron Pay) and with the generated uuid (PayBets), so neither
generator is a deterministic function of its declared inputs. -/
theorem pix_payload_shape_counterexample :
    startsWithL (iron_generate_pix_code_simulation 11834 "iron_cafebabe42".data 0)
      "00020101".data = false ∧
    containsL "br.gov.bcb.pix".data
      (iron_generate_pix_code_simulation 11834 "iron_cafebabe42".data 0) = false ∧
    spv_valid (simple_pix_validation
      (iron_generate_pix_code_simulation 11834 "iron_cafebabe42".data 0)) = false ∧
    iron_generate_pix_code_simulation 11834 "iron_cafebabe42".data 0
      ≠ iron_generate_pix_code_simulation 11834 "iron_cafebabe42".data 1 ∧
    gerar_codigo_pix_simulado 11834 "PROTO-1".data
        "0123456789abcdef0123456789abcdef".data 0
      ≠ gerar_codigo_pix_simulado 11834 "PROTO-1".data
        "ffffffffffffffffffffffffffffffff".data 0 := by
  refine ⟨by decide, by decide, by decide, by decide, by decide⟩

/-- C2 (amended): for any amount below 10^10 centavos, any transaction reference of
at most 95 characters, and any 32-character uuid hex, both simulated generators
produce a payload that starts with `00020126` (not `00020101`), contains the PIX
domain marker in its uppercase form `BR.GOV.BCB.PIX`, ends with a 4-decimal-digit
checksum (decimal digits are in particular hex digits), and has total length
between 50 and 512; the process hash value is an extra input, so the output is
deterministic only once that value is fixed. -/
theorem pix_payload_shape_amended (cents hashA hashB : Nat) (th protocolo uuidHex : List Char)
    (hc : cents < 10 ^ 10) (hth : th.length ≤ 95) (hp : protocolo.length ≤ 95)
    (hu : uuidHex.length = 32) :
    startsWithL (iron_generate_pix_code_simulation cents th hashA) "00020126".data = true ∧
    containsL "BR.GOV.BCB.PIX".data (iron_generate_pix_code_simulation cents th hashA) = true ∧
    (∀ c ∈ lastN 4 (iron_generate_pix_code_simulation cents th hashA), c.isDigit = true) ∧
    50 ≤ (iron_generate_pix_code_simulation cents th hashA).length ∧
    (iron_generate_pix_code_simulation cents th hashA).length ≤ 512 ∧
    startsWithL (gerar_codigo_pix_simulado cents protocolo uuidHex hashB)
      "00020126".data = true ∧
    containsL "BR.GOV.BCB.PIX".data
      (gerar_codigo_pix_simulado cents protocolo uuidHex hashB) = true ∧
    (∀ c ∈ lastN 4 (gerar_codigo_pix_simulado cents protocolo uuidHex hashB),
      c.isDigit = true) ∧
    50 ≤ (gerar_codigo_pix_simulado cents protocolo uuidHex hashB).length ∧
    (gerar_codigo_pix_simulado cents protocolo uuidHex hashB).length ≤ 512 := by
  have hd : (decDigits cents).length ≤ 10 := decDigits_length_le 9 cents (by omega)
  have hd1 : 0 < (decDigits cents).length := decDigits_length_pos cents
  have hfA : (fmt04d (hashA % 10000)).length = 4 :=
    fmt04d_length _ (Nat.mod_lt _ (by omega))
  have hfB : (fmt04d (hashB % 10000)).length = 4 :=
    fmt04d_length _ (Nat.mod_lt _ (by omega))
  have hmark : (['5', '8', '0', '0', '1', '4', 'B', 'R', '.', 'G', 'O', 'V', '.',
        'B', 'C', 'B', '.', 'P', 'I', 'X'] : List Char)
      = ['5', '8', '0', '0', '1', '4'] ++ ['B', 'R', '.', 'G', 'O', 'V', '.',
        'B', 'C', 'B', '.', 'P', 'I', 'X'] := by decide
  have hlen_i := iron_sim_length cents th hashA hc hth
  have hlen_p := paybets_sim_length cents protocolo uuidHex hashB hc hp hu
  refine ⟨?_, ?_, ?_, ?_, ?_, ?_, ?_, ?_, ?_, ?_⟩
  · simp only [iron_generate_pix_code_simulation, iron_pix_code, iron_pix_parts,
      List.flatten_cons, List.flatten_nil, List.append_nil, List.append_assoc]
    exact startsWithL_append_self _ _
  · simp only [iron_generate_pix_code_simulation, iron_pix_code, iron_pix_parts,
      List.flatten_cons, List.flatten_nil, List.append_nil, List.append_assoc]
    apply containsL_append_right
    rw [hmark, List.append_assoc]
    apply containsL_append_right
    exact containsL_of_startsWith _ _ (startsWithL_append_self _ _)
  · simp only [iron_generate_pix_code_simulation]
    rw [lastN_append _ _ hfA]
    exact fmt04d_all_digit _
  · omega
  · omega
  · simp only [gerar_codigo_pix_simulado, paybets_pix_code, paybets_pix_parts,
      List.flatten_cons, List.flatten_nil, List.append_nil, List.append_assoc]
    exact startsWithL_append_self _ _
  · simp only [gerar_codigo_pix_simulado, paybets_pix_code, paybets_pix_parts,
      List.flatten_cons, List.flatten_nil, List.append_nil, List.append_assoc]
    apply containsL_append_right
    rw [hmark, List.append_assoc]
    apply containsL_append_right
    exact containsL_of_startsWith _ _ (startsWithL_append_self _ _)
  · simp only [gerar_codigo_pix_simulado]
    rw [lastN_append _ _ hfB]
    exact fmt04d_all_digit _
  · omega
  · omega

/-- C5: a cache entry whose age is exactly the 60-minute window (3600 seconds) is
treated as expired: the freshness test is the strict comparison
`now - created_at < 3600`, so the lookup returns none and the entry is deleted. -/
theorem cache_sixty_minute_boundary_expires (cache : PixCache) (key : String)
    (e : CacheEntry) (now : Nat) (hl : dictLookup cache key = some e)
    (hb : now = e.created_at + 3600) :
    pix_cache_check cache key now = (none, dictErase cache key) ∧
    dictLookup (pix_cache_check cache key now).2 key = none := by
  have hfresh : ¬(now - e.created_at < 3600) := by omega
  constructor
  · simp [pix_cache_check, hl, hfresh]
  · simp [pix_cache_check, hl, hfresh, dictLookup_erase]

/-- C5 witness: an entry created at time 0 looked up at exactly 3600 seconds is
expired and deleted. -/
theorem cache_sixty_minute_boundary_expires_witness :
    pix_cache_check [("11144477735", ⟨"T1", 11835, "pixcode", "ZentraPay", "Maria", 0⟩)]
        "11144477735" 3600
      = (none, dictErase [("11144477735",
          ⟨"T1", 11835, "pixcode", "ZentraPay", "Maria", 0⟩)] "11144477735") ∧
    dictLookup (pix_cache_check [("11144477735",
        ⟨"T1", 11835, "pixcode", "ZentraPay", "Maria", 0⟩)] "11144477735" 3600).2
      "11144477735" = none :=
  cache_sixty_minute_boundary_expires _ _ _ _ rfl rfl

/-- C3: when both remote adapters fail, the handler still answers with a success
response produced by the local Brazilian-PIX fallback: `provider` is
`Brazilian_PIX_Fallback`, `status` is `pending`, and no adapter failure is
surfaced. The fallback itself is modelled from the spec (its module is absent
from the source tree) as never failing. -/
theorem failover_terminal_local_fallback (req : PixRequest) (cache : PixCache)
    (env : GenEnv) (ez ei : String)
    (h1 : req.cpf ≠ "") (h2 : req.name ≠ "") (h3 : req.email ≠ "")
    (hl : dictLookup cache (cache_key req.cpf) = none)
    (hz : zentra_create_pix_payment req.name req.email req.cpf 11835 env.zentra_net
      = .error ez)
    (hi : iron_create_pix_payment req.cpf env.iron_net = .error ei) :
    generate_pix req cache env
      = (.ok (backup_success_response env.backup "pending"), cache,
         ["ZentraPay", "Iron Pay", "Brazilian PIX"]) ∧
    (backup_success_response env.backup "pending").provider = "Brazilian_PIX_Fallback" ∧
    (backup_success_response env.backup "pending").status = "pending" ∧
    (backup_success_response env.backup "pending").success = true := by
  refine ⟨?_, rfl, rfl, rfl⟩
  simp [generate_pix, h1, h2, h3, pix_cache_check, hl, hz, hi, brazilian_create_pix_payment]

/-- C3 witness: the scenario input (Maria Souza, CPF 111.444.777-35, amount
R$ 118.35) with both remote adapters failing. -/
theorem failover_terminal_local_fallback_witness :
    generate_pix ⟨"111.444.777-35", "Maria Souza", "m@x.com"⟩ []
        ⟨.error "zfail", .error "ifail", ⟨"BP1", "BP1", 11835, "pixlocal", "qrlocal"⟩, 100⟩
      = (.ok (backup_success_response ⟨"BP1", "BP1", 11835, "pixlocal", "qrlocal"⟩
          "pending"), [], ["ZentraPay", "Iron Pay", "Brazilian PIX"]) ∧
    (backup_success_response (⟨"BP1", "BP1", 11835, "pixlocal", "qrlocal"⟩ : BackupPix)
      "pending").provider = "Brazilian_PIX_Fallback" ∧
    (backup_success_response (⟨"BP1", "BP1", 11835, "pixlocal", "qrlocal"⟩ : BackupPix)
      "pending").status = "pending" ∧
    (backup_success_response (⟨"BP1", "BP1", 11835, "pixlocal", "qrlocal"⟩ : BackupPix)
      "pending").success = true :=
  failover_terminal_local_fallback _ _ _ "zfail" "ifail" (by decide) (by decide) (by decide)
    rfl rfl rfl

/-- C4 counterexample: with tax id `123` (invalid length) the request is not
rejected before any provider adapter is invoked: all three adapters in the chain
run (ZentraPay is invoked first and rejects internally), and the request even
completes successfully via the local fallback instead of failing with a
validation error. -/
theorem invalid_cpf_reaches_adapters_counterexample :
    (generate_pix ⟨"123", "Maria Souza", "m@x.com"⟩ []
        ⟨.ok ⟨"ZT1", "zpix", "zqr", "pending", 11835, ""⟩, .error "ifail",
         ⟨"BP1", "BP1", 11835, "pixlocal", "qrlocal"⟩, 100⟩).2.2
      = ["ZentraPay", "Iron Pay", "Brazilian PIX"] ∧
    (generate_pix ⟨"123", "Maria Souza", "m@x.com"⟩ []
        ⟨.ok ⟨"ZT1", "zpix", "zqr", "pending", 11835, ""⟩, .error "ifail",
         ⟨"BP1", "BP1", 11835, "pixlocal", "qrlocal"⟩, 100⟩).1
      = .ok (backup_success_response ⟨"BP1", "BP1", 11835, "pixlocal", "qrlocal"⟩
          "pending") :=
  ⟨rfl, rfl⟩

/-- C4 (amended): a request whose tax id does not normalize to 11 digits passes
the boundary checks (which only test field presence) and is not rejected before
the adapters: the ZentraPay adapter is invoked and raises
`ValueError("CPF deve ter 11 dígitos")` internally, Iron Pay likewise rejects,
and the request completes successfully via the local fallback. -/
theorem invalid_cpf_rejected_inside_adapters (req : PixRequest) (cache : PixCache)
    (env : GenEnv)
    (h1 : req.cpf ≠ "") (h2 : req.name ≠ "") (h3 : req.email ≠ "")
    (h11 : (digitsOnlyS req.cpf).length ≠ 11)
    (hl : dictLookup cache (cache_key req.cpf) = none) :
    zentra_create_pix_payment req.name req.email req.cpf 11835 env.zentra_net
      = .error "CPF deve ter 11 dígitos" ∧
    iron_create_pix_payment req.cpf env.iron_net = .error ("CPF inválido: " ++ req.cpf) ∧
    generate_pix req cache env
      = (.ok (backup_success_response env.backup "pending"), cache,
         ["ZentraPay", "Iron Pay", "Brazilian PIX"]) := by
  have hz : zentra_create_pix_payment req.name req.email req.cpf 11835 env.zentra_net
      = .error "CPF deve ter 11 dígitos" := by
    simp [zentra_create_pix_payment, zentra_validate_cpf, h1, h2, h3, h11]
  have hi : iron_create_pix_payment req.cpf env.iron_net
      = .error ("CPF inválido: " ++ req.cpf) := by
    simp [iron_create_pix_payment, h11]
  refine ⟨hz, hi, ?_⟩
  simp [generate_pix, h1, h2, h3, pix_cache_check, hl, hz, hi, brazilian_create_pix_payment]

/-- C4 witness: the amended behavior at tax id `123`. -/
theorem invalid_cpf_rejected_inside_adapters_witness :
    zentra_create_pix_payment "Maria Souza" "m@x.com" "123" 11835 (.error "zfail")
      = .error "CPF deve ter 11 dígitos" ∧
    iron_create_pix_payment "123" (.error "ifail") = .error ("CPF inválido: " ++ "123") ∧
    generate_pix ⟨"123", "Maria Souza", "m@x.com"⟩ []
        ⟨.error "zfail", .error "ifail", ⟨"BP1", "BP1", 11835, "pixlocal", "qrlocal"⟩, 100⟩
      = (.ok (backup_success_response ⟨"BP1", "BP1", 11835, "pixlocal", "qrlocal"⟩
          "pending"), [], ["ZentraPay", "Iron Pay", "Brazilian PIX"]) :=
  invalid_cpf_rejected_inside_adapters ⟨"123", "Maria Souza", "m@x.com"⟩ []
    ⟨.error "zfail", .error "ifail", ⟨"BP1", "BP1", 11835, "pixlocal", "qrlocal"⟩, 100⟩
    (by decide) (by decide) (by decide) (by decide) rfl

/-- C6: two sequential calls with the same tax id within the 60-minute window,
the first succeeding via the second adapter (Iron Pay): the second call answers
from the cache with the identical transaction id and invokes no adapter. -/
theorem idempotent_second_call_uses_cache (req1 req2 : PixRequest) (cache : PixCache)
    (env1 env2 : GenEnv) (ez : String) (ir : IronPaymentResponse)
    (h1 : req1.cpf ≠ "") (h2 : req1.name ≠ "") (h3 : req1.email ≠ "")
    (h2b : req2.name ≠ "") (h3b : req2.email ≠ "") (hcpf : req2.cpf = req1.cpf)
    (hl : dictLookup cache (cache_key req1.cpf) = none)
    (hz : zentra_create_pix_payment req1.name req1.email req1.cpf 11835 env1.zentra_net
      = .error ez)
    (hi : iron_create_pix_payment req1.cpf env1.iron_net = .ok ir)
    (htime : env2.now - env1.now < 3600) :
    (generate_pix req1 cache env1).1 = .ok (iron_success_response ir) ∧
    (generate_pix req2 (generate_pix req1 cache env1).2.1 env2).1
      = .ok (cached_pix_response (iron_cache_entry ir req1.name env1.now)) ∧
    (generate_pix req2 (generate_pix req1 cache env1).2.1 env2).2.2 = [] ∧
    (cached_pix_response (iron_cache_entry ir req1.name env1.now)).transaction_id
      = ir.transaction_hash := by
  have hout1 : generate_pix req1 cache env1
      = (.ok (iron_success_response ir),
         dictInsert cache (cache_key req1.cpf) (iron_cache_entry ir req1.name env1.now),
         ["ZentraPay", "Iron Pay"]) := by
    simp [generate_pix, h1, h2, h3, pix_cache_check, hl, hz, hi]
  have h1b : req2.cpf ≠ "" := by
    rw [hcpf]
    exact h1
  have hl2 : dictLookup (dictInsert cache (cache_key req1.cpf)
      (iron_cache_entry ir req1.name env1.now)) (cache_key req2.cpf)
      = some (iron_cache_entry ir req1.name env1.now) := by
    rw [hcpf]
    exact dictLookup_insert _ _ _
  have hout2 : generate_pix req2 (generate_pix req1 cache env1).2.1 env2
      = (.ok (cached_pix_response (iron_cache_entry ir req1.name env1.now)),
         dictInsert cache (cache_key req1.cpf) (iron_cache_entry ir req1.name env1.now),
         []) := by
    have hfresh : env2.now - (iron_cache_entry ir req1.name env1.now).created_at < 3600 := by
      simpa [iron_cache_entry] using htime
    rw [hout1]
    simp [generate_pix, h1b, h2b, h3b, pix_cache_check, hl2, hfresh]
  exact ⟨by rw [hout1], by rw [hout2], by rw [hout2], rfl⟩

/-- C6 witness: two concrete calls 1900 seconds apart, the first failing over to
Iron Pay. -/
theorem idempotent_second_call_uses_cache_witness :
    (generate_pix ⟨"111.444.777-35", "Maria Souza", "m@x.com"⟩ []
        ⟨.error "zfail", .ok ⟨"IRONTX1", "ipix", "iqr", "pending", 11835⟩,
         ⟨"BP1", "BP1", 11835, "pixlocal", "qrlocal"⟩, 100⟩).1
      = .ok (iron_success_response ⟨"IRONTX1", "ipix", "iqr", "pending", 11835⟩) ∧
    (generate_pix ⟨"111.444.777-35", "Maria Souza", "m@x.com"⟩
        (generate_pix ⟨"111.444.777-35", "Maria Souza", "m@x.com"⟩ []
          ⟨.error "zfail", .ok ⟨"IRONTX1", "ipix", "iqr", "pending", 11835⟩,
           ⟨"BP1", "BP1", 11835, "pixlocal", "qrlocal"⟩, 100⟩).2.1
        ⟨.error "zfail2", .error "ifail2",
         ⟨"BP2", "BP2", 11835, "pixlocal2", "qrlocal2"⟩, 2000⟩).1
      = .ok (cached_pix_response
          (iron_cache_entry ⟨"IRONTX1", "ipix", "iqr", "pending", 11835⟩
            "Maria Souza" 100)) ∧
    (generate_pix ⟨"111.444.777-35", "Maria Souza", "m@x.com"⟩
        (generate_pix ⟨"111.444.777-35", "Maria Souza", "m@x.com"⟩ []
          ⟨.error "zfail", .ok ⟨"IRONTX1", "ipix", "iqr", "pending", 11835⟩,
           ⟨"BP1", "BP1", 11835, "pixlocal", "qrlocal"⟩, 100⟩).2.1
        ⟨.error "zfail2", .error "ifail2",
         ⟨"BP2", "BP2", 11835, "pixlocal2", "qrlocal2"⟩, 2000⟩).2.2 = [] ∧
    (cached_pix_response (iron_cache_entry ⟨"IRONTX1", "ipix", "iqr", "pending", 11835⟩
        "Maria Souza" 100)).transaction_id
      = IronPaymentResponse.transaction_hash ⟨"IRONTX1", "ipix", "iqr", "pending", 11835⟩ :=
  idempotent_second_call_uses_cache ⟨"111.444.777-35", "Maria Souza", "m@x.com"⟩
    ⟨"111.444.777-35", "Maria Souza", "m@x.com"⟩ []
    ⟨.error "zfail", .ok ⟨"IRONTX1", "ipix", "iqr", "pending", 11835⟩,
     ⟨"BP1", "BP1", 11835, "pixlocal", "qrlocal"⟩, 100⟩
    ⟨.error "zfail2", .error "ifail2", ⟨"BP2", "BP2", 11835, "pixlocal2", "qrlocal2"⟩, 2000⟩
    "zfail" ⟨"IRONTX1", "ipix", "iqr", "pending", 11835⟩
    (by decide) (by decide) (by decide) (by decide) (by decide) rfl rfl rfl rfl (by decide)

/-- C7 counterexample: with an empty cache and both remote adapters failing, the
request completes with a successful result produced by the local fallback, yet
the cache after the call is still empty: the fallback success path writes no
cache entry. -/
theorem fallback_success_writes_no_cache_counterexample :
    (generate_pix ⟨"111.444.777-35", "Maria Souza", "m@x.com"⟩ []
        ⟨.error "zfail", .error "ifail", ⟨"BP1", "BP1", 11835, "pixlocal", "qrlocal"⟩,
         100⟩).1
      = .ok (backup_success_response ⟨"BP1", "BP1", 11835, "pixlocal", "qrlocal"⟩
          "pending") ∧
    (generate_pix ⟨"111.444.777-35", "Maria Souza", "m@x.com"⟩ []
        ⟨.error "zfail", .error "ifail", ⟨"BP1", "BP1", 11835, "pixlocal", "qrlocal"⟩,
         100⟩).2.1 = [] :=
  ⟨rfl, rfl⟩

/-- C7 (amended): on a cache miss the cache content for the key after the call is
exactly determined by which adapter produced the result: a ZentraPay success
writes its entry, an Iron Pay success writes its entry, and the local-fallback
path leaves the cache without an entry for the key. -/
theorem cache_write_by_adapter_outcome (req : PixRequest) (cache : PixCache)
    (env : GenEnv)
    (h1 : req.cpf ≠ "") (h2 : req.name ≠ "") (h3 : req.email ≠ "")
    (hl : dictLookup cache (cache_key req.cpf) = none) :
    dictLookup (generate_pix req cache env).2.1 (cache_key req.cpf)
      = match zentra_create_pix_payment req.name req.email req.cpf 11835 env.zentra_net with
        | .ok zr => some (zentra_cache_entry zr req.name env.now)
        | .error _ =>
          match iron_create_pix_payment req.cpf env.iron_net with
          | .ok ir => some (iron_cache_entry ir req.name env.now)
          | .error _ => none := by
  cases hz : zentra_create_pix_payment req.name req.email req.cpf 11835 env.zentra_net with
  | ok zr => simp [generate_pix, h1, h2, h3, pix_cache_check, hl, hz, dictLookup_insert]
  | error e =>
    cases hi : iron_create_pix_payment req.cpf env.iron_net with
    | ok ir => simp [generate_pix, h1, h2, h3, pix_cache_check, hl, hz, hi, dictLookup_insert]
    | error e2 =>
      simp [generate_pix, h1, h2, h3, pix_cache_check, hl, hz, hi,
        brazilian_create_pix_payment]

/-- C7 witness: the ZentraPay success case of the amended cache-write theorem at a
concrete input (the written entry carries the ZentraPay transaction id). -/
theorem cache_write_by_adapter_outcome_witness :
    dictLookup (generate_pix ⟨"111.444.777-35", "Maria Souza", "m@x.com"⟩ []
        ⟨.ok ⟨"ZT1", "zpix", "zqr", "pending", 11835, ""⟩, .error "ifail",
         ⟨"BP1", "BP1", 11835, "pixlocal", "qrlocal"⟩, 100⟩).2.1
      (cache_key "111.444.777-35")
      = match zentra_create_pix_payment "Maria Souza" "m@x.com" "111.444.777-35" 11835
          (.ok ⟨"ZT1", "zpix", "zqr", "pending", 11835, ""⟩) with
        | .ok zr => some (zentra_cache_entry zr "Maria Souza" 100)
        | .error _ =>
          match iron_create_pix_payment "111.444.777-35" (.error "ifail") with
          | .ok ir => some (iron_cache_entry ir "Maria Souza" 100)
          | .error _ => none :=
  cache_write_by_adapter_outcome ⟨"111.444.777-35", "Maria Souza", "m@x.com"⟩ []
    ⟨.ok ⟨"ZT1", "zpix", "zqr", "pending", 11835, ""⟩, .error "ifail",
     ⟨"BP1", "BP1", 11835, "pixlocal", "qrlocal"⟩, 100⟩
    (by decide) (by decide) (by decide) rfl

/-- C8 counterexample: `111.444.777-35` and `111 444 777 35` carry the same digit
sequence, yet map to different cache keys: the normalization removes only dots
and dashes, so the spaces survive in the second key. -/
theorem cache_key_not_digit_normalization_counterexample :
    digitsOnlyS "111.444.777-35" = digitsOnlyS "111 444 777 35" ∧
    cache_key "111.444.777-35" ≠ cache_key "111 444 777 35" :=
  ⟨by decide, by decide⟩

/-- C8 (amended): the cache key strips exactly the characters `.` and `-`; for tax
id strings built only from digits, dots and dashes, equal digit sequences do give
equal cache keys (on such inputs the normalization coincides with stripping all
non-digits). -/
theorem cache_key_agrees_on_dot_dash_inputs (a b : String)
    (ha : ∀ c ∈ a.data, c.isDigit = true ∨ c = '.' ∨ c = '-')
    (hb : ∀ c ∈ b.data, c.isDigit = true ∨ c = '.' ∨ c = '-')
    (hdig : digitsOnlyS a = digitsOnlyS b) :
    cache_key a = cache_key b := by
  have ea : cache_key a = digitsOnlyS a :=
    congrArg String.mk (filter_dotdash_eq_filter_digit a.data ha)
  have eb : cache_key b = digitsOnlyS b :=
    congrArg String.mk (filter_dotdash_eq_filter_digit b.data hb)
  rw [ea, eb, hdig]

/-- C8 witness: two dot/dash-formatted spellings of the same CPF share a cache key. -/
theorem cache_key_agrees_on_dot_dash_inputs_witness :
    cache_key "111.444.777-35" = cache_key "111444777-35" :=
  cache_key_agrees_on_dot_dash_inputs "111.444.777-35" "111444777-35"
    (by decide) (by decide) (by decide)

/-- C9: every `check_payment_status` call returns a status dictionary and lets no
exception propagate, whatever the outcome of the remote interaction; network
exceptions, non-success HTTP codes and malformed bodies all map to best-effort
`pending`/`error` dictionaries (ZentraPay maps 404 to a `not_found` dictionary). -/
theorem check_status_never_raises (tid msg : String) (code : Nat)
    (body : Option StatusJsonBody) (out : HttpOutcome)
    (h200 : code ≠ 200) (h404 : code ≠ 404) :
    exceptIsOk (iron_check_payment_status tid out) = true ∧
    exceptIsOk (zentra_check_payment_status tid out) = true ∧
    exceptIsOk (paybets_check_payment_status tid) = true ∧
    statusOf (iron_check_payment_status tid (.exn msg)) = some "error" ∧
    statusOf (iron_check_payment_status tid (.resp code body)) = some "pending" ∧
    statusOf (iron_check_payment_status tid (.resp 200 none)) = some "error" ∧
    statusOf (zentra_check_payment_status tid (.exn msg)) = some "error" ∧
    statusOf (zentra_check_payment_status tid (.resp code body)) = some "error" ∧
    statusOf (zentra_check_payment_status tid (.resp 404 body)) = some "not_found" ∧
    statusOf (zentra_check_payment_status tid (.resp 200 none)) = some "error" ∧
    statusOf (paybets_check_payment_status tid) = some "pending" := by
  refine ⟨?_, ?_, rfl, rfl, ?_, ?_, rfl, ?_, ?_, ?_, rfl⟩
  · cases out with
    | exn m => rfl
    | resp c b =>
      by_cases hc : c = 200
      · cases b <;> simp [iron_check_payment_status, iron_check_status_try, hc, exceptIsOk]
      · simp [iron_check_payment_status, iron_check_status_try, hc, exceptIsOk]
  · cases out with
    | exn m => rfl
    | resp c b =>
      by_cases hc4 : c = 404
      · simp [zentra_check_payment_status, zentra_check_status_try, hc4, exceptIsOk]
      · by_cases hc : c = 200
        · cases b <;>
            simp [zentra_check_payment_status, zentra_check_status_try, hc4, hc, exceptIsOk]
        · simp [zentra_check_payment_status, zentra_check_status_try, hc4, hc, exceptIsOk]
  · simp [iron_check_payment_status, iron_check_status_try, h200, statusOf]
  · simp [iron_check_payment_status, iron_check_status_try, statusOf]
  · simp [zentra_check_payment_status, zentra_check_status_try, h200, h404, statusOf]
  · simp [zentra_check_payment_status, zentra_check_status_try, statusOf]
  · simp [zentra_check_payment_status, zentra_check_status_try, statusOf]

/-- C9 witness: the status-check totality facts at transaction id `t`, a network
exception `boom`, HTTP code 500 and a missing body. -/
theorem check_status_never_raises_witness :
    exceptIsOk (iron_check_payment_status "t" (.exn "net down")) = true ∧
    exceptIsOk (zentra_check_payment_status "t" (.exn "net down")) = true ∧
    exceptIsOk (paybets_check_payment_status "t") = true ∧
    statusOf (iron_check_payment_status "t" (.exn "boom")) = some "error" ∧
    statusOf (iron_check_payment_status "t" (.resp 500 none)) = some "pending" ∧
    statusOf (iron_check_payment_status "t" (.resp 200 none)) = some "error" ∧
    statusOf (zentra_check_payment_status "t" (.exn "boom")) = some "error" ∧
    statusOf (zentra_check_payment_status "t" (.resp 500 none)) = some "error" ∧
    statusOf (zentra_check_payment_status "t" (.resp 404 none)) = some "not_found" ∧
    statusOf (zentra_check_payment_status "t" (.resp 200 none)) = some "error" ∧
    statusOf (paybets_check_payment_status "t") = some "pending" :=
  check_status_never_raises "t" "boom" 500 none (.exn "net down") (by decide) (by decide)

/-- C10: on a fresh cache hit, the handler answers with the literal status
`pending` and puts the cached textual PIX code into both QR-image fields
(`pixQrCode` and `qr_code_image`), whatever the stored entry holds (the cache
entry records no status and no rendered QR image at all), leaving the cache
unchanged and invoking no adapter. -/
theorem cache_hit_response_shape (req : PixRequest) (cache : PixCache) (env : GenEnv)
    (e : CacheEntry)
    (h1 : req.cpf ≠ "") (h2 : req.name ≠ "") (h3 : req.email ≠ "")
    (hl : dictLookup cache (cache_key req.cpf) = some e)
    (hfresh : env.now - e.created_at < 3600) :
    generate_pix req cache env = (.ok (cached_pix_response e), cache, []) ∧
    (cached_pix_response e).status = "pending" ∧
    (cached_pix_response e).pixQrCode = e.pix_code ∧
    (cached_pix_response e).qr_code_image = e.pix_code ∧
    (cached_pix_response e).cached = some true := by
  refine ⟨?_, rfl, rfl, rfl, rfl⟩
  simp [generate_pix, h1, h2, h3, pix_cache_check, hl, hfresh]

/-- C10 witness: a concrete fresh cache hit (entry created at 0, looked up at
100 seconds). -/
theorem cache_hit_response_shape_witness :
    generate_pix ⟨"111.444.777-35", "Maria Souza", "m@x.com"⟩
        [("11144477735", ⟨"T1", 11835, "pixcode", "ZentraPay", "Maria", 0⟩)]
        ⟨.error "zfail", .error "ifail", ⟨"BP1", "BP1", 11835, "pixlocal", "qrlocal"⟩, 100⟩
      = (.ok (cached_pix_response ⟨"T1", 11835, "pixcode", "ZentraPay", "Maria", 0⟩),
         [("11144477735", ⟨"T1", 11835, "pixcode", "ZentraPay", "Maria", 0⟩)], []) ∧
    (cached_pix_response (⟨"T1", 11835, "pixcode", "ZentraPay", "Maria", 0⟩ : CacheEntry)).status
      = "pending" ∧
    (cached_pix_response (⟨"T1", 11835, "pixcode", "ZentraPay", "Maria", 0⟩ : CacheEntry)).pixQrCode
      = CacheEntry.pix_code ⟨"T1", 11835, "pixcode", "ZentraPay", "Maria", 0⟩ ∧
    (cached_pix_response (⟨"T1", 11835, "pixcode", "ZentraPay", "Maria", 0⟩ : CacheEntry)).qr_code_image
      = CacheEntry.pix_code ⟨"T1", 11835, "pixcode", "ZentraPay", "Maria", 0⟩ ∧
    (cached_pix_response (⟨"T1", 11835, "pixcode", "ZentraPay", "Maria", 0⟩ : CacheEntry)).cached
      = some true :=
  cache_hit_response_shape ⟨"111.444.777-35", "Maria Souza", "m@x.com"⟩
    [("11144477735", ⟨"T1", 11835, "pixcode", "ZentraPay", "Maria", 0⟩)]
    ⟨.error "zfail", .error "ifail", ⟨"BP1", "BP1", 11835, "pixlocal", "qrlocal"⟩, 100⟩
    ⟨"T1", 11835, "pixcode", "ZentraPay", "Maria", 0⟩
    (by decide) (by decide) (by decide) rfl (by decide)

/-- C2 witness: the amended payload-shape theorem instantiated at amount 11834
centavos, Iron Pay hash `iron_cafebabe42`, PayBets reference `PROTO-1` and a
concrete uuid, with both process hash values 0. -/
theorem pix_payload_shape_amended_witness :
    startsWithL (iron_generate_pix_code_simulation 11834 "iron_cafebabe42".data 0)
      "00020126".data = true ∧
    containsL "BR.GOV.BCB.PIX".data
      (iron_generate_pix_code_simulation 11834 "iron_cafebabe42".data 0) = true ∧
    (∀ c ∈ lastN 4 (iron_generate_pix_code_simulation 11834 "iron_cafebabe42".data 0),
      c.isDigit = true) ∧
    50 ≤ (iron_generate_pix_code_simulation 11834 "iron_cafebabe42".data 0).length ∧
    (iron_generate_pix_code_simulation 11834 "iron_cafebabe42".data 0).length ≤ 512 ∧
    startsWithL (gerar_codigo_pix_simulado 11834 "PROTO-1".data
      "0123456789abcdef0123456789abcdef".data 0) "00020126".data = true ∧
    containsL "BR.GOV.BCB.PIX".data (gerar_codigo_pix_simulado 11834 "PROTO-1".data
      "0123456789abcdef0123456789abcdef".data 0) = true ∧
    (∀ c ∈ lastN 4 (gerar_codigo_pix_simulado 11834 "PROTO-1".data
      "0123456789abcdef0123456789abcdef".data 0), c.isDigit = true) ∧
    50 ≤ (gerar_codigo_pix_simulado 11834 "PROTO-1".data
      "0123456789abcdef0123456789abcdef".data 0).length ∧
    (gerar_codigo_pix_simulado 11834 "PROTO-1".data
      "0123456789abcdef0123456789abcdef".data 0).length ≤ 512 :=
  pix_payload_shape_amended 11834 0 0 "iron_cafebabe42".data "PROTO-1".data
    "0123456789abcdef0123456789abcdef".data (by decide) (by decide) (by decide) (by decide)

end PixApp

